import Mathlib

/-!
Shallow embedding of the word-weave like-service core (Rust sources under
`like-service/src`): the data model (`models/like.rs`), the likes repository
(`repository/like_repository.rs`), the collaborator clients
(`clients/user_client.rs`, `clients/post_client.rs`) and the gRPC
orchestrator (`service/like_service.rs`).

The SurrealDB storage backend is external to the repository; it is modelled
as a list of rows together with the behaviour the schema in
`database/surreal.rs` prescribes (in particular the unique compound index
`likes_user_post` on `(user_id, post_id)`).  Timestamps (`DateTime<Utc>`)
are modelled as natural numbers counting nanoseconds since the epoch.
Machine integers: `post_id : u32` becomes `Nat` (the Rust check
`*post_id <= 0` is `post_id = 0` on an unsigned type), `page, limit : i32`
and `total_count : i64` become `Int`.
-/

namespace WordWeave

/-- A row of the `likes` table (struct `Like` in `models/like.rs`):
`id` (fresh identifier), `user_id`, `post_id`, and the three timestamps
`liked_at`, `created_at`, `updated_at`. -/
structure Like where
  id : String
  user_id : String
  post_id : Nat
  liked_at : Nat
  created_at : Nat
  updated_at : Nat
deriving DecidableEq, Repr

/-- Wire timestamp (prost `Timestamp`): seconds plus nanoseconds. -/
structure Timestamp where
  seconds : Nat
  nanos : Nat
deriving DecidableEq, Repr

/-- `LikesServiceImpl::datetime_to_timestamp`: split a nanosecond instant
into seconds and sub-second nanoseconds. -/
def datetime_to_timestamp (dt : Nat) : Timestamp :=
  ⟨dt / 1000000000, dt % 1000000000⟩

/-- Domain errors (`error.rs`, enum `LikesError`); the backend error is
carried as its rendered text. -/
inductive LikesError where
  | Database (msg : String)
  | Serialization (msg : String)
  | InvalidInput (msg : String)
  | NotFound (msg : String)
  | AlreadyExists (msg : String)
  | Internal (msg : String)
deriving DecidableEq, Repr

/-- gRPC status codes produced by this service (tonic `Status`). -/
inductive Status where
  | invalid_argument (msg : String)
  | not_found (msg : String)
  | already_exists (msg : String)
  | internal (msg : String)
deriving DecidableEq, Repr

/-- `impl From<LikesError> for Status` in `error.rs`. -/
def statusOfLikesError : LikesError → Status
  | .InvalidInput m => .invalid_argument m
  | .NotFound m => .not_found m
  | .AlreadyExists m => .already_exists m
  | .Database _ => .internal "Database error occurred"
  | .Serialization _ => .internal "Serialization error occurred"
  | .Internal m => .internal m

/-- Substring test on character lists, structural recursion on the text. -/
def hasSub (pat : List Char) : List Char → Bool
  | [] => pat.isPrefixOf []
  | c :: rest => pat.isPrefixOf (c :: rest) || hasSub pat rest

/-- Model of Rust `str::contains(pat)` used in
`LikesRepository::create_like` to recognise the uniqueness-violation
error by its text. -/
def strContains (s pat : String) : Bool :=
  hasSub pat.data s.data

/-- The row predicate `user_id = $user_id AND post_id = $post_id` used by
the repository queries. -/
def likeMatches (u : String) (p : Nat) (r : Like) : Bool :=
  r.user_id == u && r.post_id == p

/-- Modelled from the spec: the storage backend (SurrealDB) is an external
engine, not part of `src/`; per the spec the uniqueness violation of the
unique compound index `likes_user_post` is reported through the backend
error's text, which the repository recognises.  This constant is that
rendered text. -/
def duplicateIndexErrorText : String :=
  "Database index likes_user_post rejected a duplicate entry"

/-- Modelled from the spec: executing the repository's `CREATE likes SET ...`
statement against the backend.  The schema (`Database` setup in
`database/surreal.rs`) declares `DEFINE INDEX likes_user_post ON TABLE likes
COLUMNS user_id, post_id UNIQUE`, so an insert that collides on
`(user_id, post_id)` fails with the uniqueness-violation error; otherwise
the row is stored with the backend-side `time::now()` timestamps and echoed
back (`result.take(0)` yields an `Option` row). -/
def dbCreateLike (db : List Like) (l : Like) (now : Nat) :
    Except String (List Like × Option Like) :=
  if db.any (likeMatches l.user_id l.post_id) then
    .error duplicateIndexErrorText
  else
    let stored : Like := ⟨l.id, l.user_id, l.post_id, now, now, now⟩
    .ok (db ++ [stored], some stored)

namespace LikesRepository

/-- Mapping of the raw backend response of the insert, from
`LikesRepository::create_like` (`like_repository.rs` lines 48-70): a backend
error whose text mentions a duplicate becomes `AlreadyExists`, any other
backend error becomes `Database`, a success that echoes no row becomes
`Internal`, and a success with a row is returned as-is. -/
def mapCreateLikeResult (r : Except String (List Like × Option Like)) :
    Except LikesError (List Like × Like) :=
  match r with
  | .error e =>
      if strContains e "duplicate" then
        .error (.AlreadyExists "User has already liked this post")
      else
        .error (.Database e)
  | .ok (_, none) => .error (.Internal "Failed to create like")
  | .ok (db1, some l) => .ok (db1, l)

/-- `LikesRepository::create_like`: validate the input, build a `Like` with
a fresh id, insert it, and map the backend response.  `freshId` stands for
the generated UUID and `now` for the backend clock. -/
def create_like (db : List Like) (user_id : String) (post_id : Nat)
    (freshId : String) (now : Nat) : Except LikesError (List Like × Like) :=
  if user_id = "" then
    .error (.InvalidInput "User ID cannot be empty")
  else if post_id = 0 then
    .error (.InvalidInput "Post ID must be a positive integer")
  else
    mapCreateLikeResult (dbCreateLike db ⟨freshId, user_id, post_id, now, now, now⟩ now)

/-- `LikesRepository::delete_like`: `DELETE likes WHERE user_id = $user_id
AND post_id = $post_id`; returns the surviving table and whether anything
was deleted (the deleted rows are echoed back and tested for emptiness). -/
def delete_like (db : List Like) (user_id : String) (post_id : Nat) :
    Except LikesError (List Like × Bool) :=
  .ok (db.filter (fun r => !(likeMatches user_id post_id r)),
       !(db.filter (likeMatches user_id post_id)).isEmpty)

/-- `LikesRepository::is_post_liked`: `SELECT liked_at FROM likes WHERE
user_id = $user_id AND post_id = $post_id LIMIT 1`; the first matching
row's `liked_at`, if any. -/
def is_post_liked (db : List Like) (user_id : String) (post_id : Nat) :
    Except LikesError (Option Nat) :=
  .ok (((db.filter (likeMatches user_id post_id)).head?).map Like.liked_at)

/-- `LikesRepository::get_likes_count`: aggregate count of the rows of one
post; absence of rows yields 0. -/
def get_likes_count (db : List Like) (post_id : Nat) : Except LikesError Int :=
  .ok ((db.filter (fun r => r.post_id == post_id)).length : Int)

/-- The membership predicate built by `LikesRepository::unlike_posts`: the
conditions `user_id IN $user_ids` and `post_id IN $post_ids` are each
emitted only when the corresponding list is non-empty, and the emitted
conditions are joined with AND. -/
def bulkMatches (user_ids : List String) (post_ids : List Nat) (r : Like) : Bool :=
  (user_ids.isEmpty || user_ids.contains r.user_id) &&
  (post_ids.isEmpty || post_ids.contains r.post_id)

/-- `LikesRepository::unlike_posts`: reject the call only when both lists
are empty; otherwise delete the rows satisfying the conjunction of the
supplied membership conditions and report whether anything was deleted. -/
def unlike_posts (db : List Like) (user_ids : List String) (post_ids : List Nat) :
    Except LikesError (List Like × Bool) :=
  if user_ids.isEmpty && post_ids.isEmpty then
    .error (.InvalidInput "At least one of user_ids or post_ids must be provided")
  else
    .ok (db.filter (fun r => !(bulkMatches user_ids post_ids r)),
         !(db.filter (bulkMatches user_ids post_ids)).isEmpty)

end LikesRepository

/-- Modelled from the spec: `getLikesCountBulk(post_ids)` is described in
the spec (aggregate grouped by `post_id` for a batch, every requested id
present with default 0) but absent from `src/`; this definition follows the
spec's words. -/
def get_likes_count_bulk (db : List Like) (post_ids : List Nat) :
    List (Nat × Int) :=
  post_ids.map (fun p => (p, ((db.filter (fun r => r.post_id == p)).length : Int)))

/-- `PaginationParams` (`models/like.rs`): `page` and `limit` as `i32`. -/
structure PaginationParams where
  page : Int
  limit : Int
deriving DecidableEq, Repr

/-- `PaginationParams::new`: `page < 1` becomes 1; `limit < 1` becomes 10;
`limit > 100` becomes 100; in-range values pass through. -/
def PaginationParams.new (page limit : Int) : PaginationParams :=
  { page := if page < 1 then 1 else page,
    limit := if limit < 1 then 10 else if limit > 100 then 100 else limit }

/-- `PaginationParams::offset`: `(page - 1) * limit`. -/
def PaginationParams.offset (p : PaginationParams) : Int :=
  (p.page - 1) * p.limit

/-- `PaginatedResult<T>` (`models/like.rs`). -/
structure PaginatedResult (T : Type) where
  data : List T
  total_count : Int
  current_page : Int
  total_pages : Int
  limit : Int
deriving Repr

/-- Nearest integer to a rational, ties going to the even integer —
IEEE-754 round-to-nearest-even at integer granularity. -/
def roundNearestEvenInt (m : ℚ) : Int :=
  if m - ⌊m⌋ < 1/2 then ⌊m⌋
  else if 1/2 < m - ⌊m⌋ then ⌊m⌋ + 1
  else if ⌊m⌋ % 2 = 0 then ⌊m⌋ else ⌊m⌋ + 1

/-- Rounding of a positive rational to an IEEE-754 binary64 value
(53 significant bits, round-to-nearest, ties-to-even): scale into the
mantissa window `[2^52, 2^53)`, round to an integer, and scale back. -/
def round64Pos (q : ℚ) : ℚ :=
  let e : Int := Int.log 2 q - 52
  ((roundNearestEvenInt (q * (2:ℚ)^(-e)) : ℚ)) * (2:ℚ)^e

/-- Rounding of a rational to the nearest IEEE-754 binary64 value.
Sub-normal underflow and overflow to infinity lie far outside the range
reachable from this service's `i64`/`i32` arithmetic (quotients stay
within `[2^-31, 2^63]`) and are not modelled. -/
def round64 (q : ℚ) : ℚ :=
  if q = 0 then 0
  else if 0 < q then round64Pos q
  else -round64Pos (-q)

/-- Rust's saturating float-to-`i32` cast, applied to the (integral)
result of `.ceil()`. -/
def saturateToI32 (n : Int) : Int :=
  if n < -2147483648 then -2147483648
  else if 2147483647 < n then 2147483647
  else n

/-- `PaginatedResult::new`: the Rust source computes `total_pages` as
`((total_count as f64) / (limit as f64)).ceil() as i32`: both operands are
rounded to binary64, the quotient is correctly rounded, `.ceil()` is exact
on a binary64 value, and the cast saturates at the `i32` bounds. -/
def PaginatedResult.new {T : Type} (data : List T) (total_count : Int)
    (params : PaginationParams) : PaginatedResult T :=
  { data := data,
    total_count := total_count,
    current_page := params.page,
    total_pages := saturateToI32
      ⌈round64 (round64 (total_count : ℚ) / round64 (params.limit : ℚ))⌉,
    limit := params.limit }

/-- The canonical user record carried by the user service response. -/
structure User where
  id : String
deriving DecidableEq, Repr

/-- `GetUserResponse` of the user collaborator service. -/
structure GetUserResponse where
  success : Bool
  message : String
  user : Option User
deriving DecidableEq, Repr

/-- `GetPostResponse` of the post collaborator service. -/
structure GetPostResponse where
  success : Bool
  message : String
deriving DecidableEq, Repr

/-- `LikePostResponse` of the like service. -/
structure LikePostResponse where
  success : Bool
  message : String
  liked_at : Option Timestamp
deriving DecidableEq, Repr

/-- `UnlikePostResponse` of the like service. -/
structure UnlikePostResponse where
  success : Bool
  message : String
deriving DecidableEq, Repr

/-- `IsPostLikedResponse` of the like service. -/
structure IsPostLikedResponse where
  is_liked : Bool
  liked_at : Option Timestamp
deriving DecidableEq, Repr

namespace UserClient

/-- `UserClient::get_user` (`clients/user_client.rs`): reject an empty id
before the RPC, then forward the wire response; a transport-level failure
is re-wrapped with a "Failed to get user" prefix.  The underlying RPC is
the external user service, abstracted as the function `rpc`. -/
def get_user (rpc : String → Except String GetUserResponse) (user_id : String) :
    Except String GetUserResponse :=
  if user_id = "" then
    .error "User ID cannot be empty"
  else
    match rpc user_id with
    | .ok r => .ok r
    | .error m => .error ("Failed to get user: " ++ m)

/-- `UserClient::user_exists`: true when `get_user` succeeds with
`success` set and a user present; any error becomes `Ok(false)`. -/
def user_exists (rpc : String → Except String GetUserResponse) (user_id : String) :
    Except String Bool :=
  match get_user rpc user_id with
  | .ok r => .ok (r.success && r.user.isSome)
  | .error _ => .ok false

end UserClient

namespace PostClient

/-- `PostClient::get_post` (`clients/post_client.rs`): reject a zero id
before the RPC (the `post_id <= 0` check on `u32`), then forward the wire
response; a transport-level failure is re-wrapped. -/
def get_post (rpc : Nat → Except String GetPostResponse) (post_id : Nat) :
    Except String GetPostResponse :=
  if post_id = 0 then
    .error "Post ID must be a positive integer"
  else
    match rpc post_id with
    | .ok r => .ok r
    | .error m => .error ("Failed to get post: " ++ m)

/-- `PostClient::post_exists`: true when `get_post` succeeds with
`success` set; any error becomes `Ok(false)`. -/
def post_exists (rpc : Nat → Except String GetPostResponse) (post_id : Nat) :
    Except String Bool :=
  match get_post rpc post_id with
  | .ok r => .ok r.success
  | .error _ => .ok false

end PostClient

/-- Model of Rust `s.trim().is_empty()`: trimming leaves nothing exactly
when every character is whitespace. -/
def trimIsEmpty (s : String) : Bool :=
  s.data.all Char.isWhitespace

namespace LikesServiceImpl

/-- `LikesServiceImpl::validate_ids`: blank (empty after trim) user id or
zero post id is an invalid-argument status. -/
def validate_ids (user_id : String) (post_id : Nat) : Except Status Unit :=
  if trimIsEmpty user_id then
    .error (.invalid_argument "User ID cannot be empty")
  else if post_id = 0 then
    .error (.invalid_argument "Post ID must be greater than 0")
  else
    .ok ()

/-- `LikesServiceImpl::like_post` (`service/like_service.rs` lines 73-145):
validate the identifiers, soft-fail when the user or the post does not
exist, resolve the canonical user id, create the like and return its
`liked_at`; repository errors are translated into RPC statuses. -/
def like_post (getU : String → Except String GetUserResponse)
    (getP : Nat → Except String GetPostResponse)
    (db : List Like) (user_id : String) (post_id : Nat)
    (freshId : String) (now : Nat) :
    Except Status (List Like × LikePostResponse) :=
  match validate_ids user_id post_id with
  | .error s => .error s
  | .ok _ =>
    match UserClient.user_exists getU user_id with
    | .error e => .error (.internal ("User validation failed: " ++ e))
    | .ok false => .ok (db, ⟨false, "User not found", none⟩)
    | .ok true =>
      match UserClient.get_user getU user_id with
      | .error e => .error (.internal ("Failed to get user details: " ++ e))
      | .ok resp =>
        match resp.user with
        | none => .error (.not_found "User not found")
        | some u =>
          match PostClient.post_exists getP post_id with
          | .error e => .error (.internal ("Post validation failed: " ++ e))
          | .ok false => .ok (db, ⟨false, "Post not found", none⟩)
          | .ok true =>
            match LikesRepository.create_like db u.id post_id freshId now with
            | .ok (db1, like) =>
                .ok (db1, ⟨true, "Post liked successfully",
                           some (datetime_to_timestamp like.liked_at)⟩)
            | .error e => .error (statusOfLikesError e)

/-- `LikesServiceImpl::unlike_post` (`service/like_service.rs` lines
147-197): validate, resolve the canonical user id (a collaborator failure
here is a hard RPC error), delete, and translate the deletion boolean into
the structured response. -/
def unlike_post (getU : String → Except String GetUserResponse)
    (db : List Like) (user_id : String) (post_id : Nat) :
    Except Status (List Like × UnlikePostResponse) :=
  match validate_ids user_id post_id with
  | .error s => .error s
  | .ok _ =>
    match UserClient.get_user getU user_id with
    | .error e => .error (.internal ("Failed to get user details: " ++ e))
    | .ok resp =>
      match resp.user with
      | none => .error (.not_found "User not found")
      | some u =>
        match LikesRepository.delete_like db u.id post_id with
        | .ok (db1, true) => .ok (db1, ⟨true, "Post unliked successfully"⟩)
        | .ok (db1, false) => .ok (db1, ⟨false, "Like not found"⟩)
        | .error e => .error (statusOfLikesError e)

/-- `LikesServiceImpl::is_post_liked` (`service/like_service.rs` lines
304-344): validate, resolve the canonical user id, and report presence and
timestamp of the like. -/
def is_post_liked (getU : String → Except String GetUserResponse)
    (db : List Like) (user_id : String) (post_id : Nat) :
    Except Status IsPostLikedResponse :=
  match validate_ids user_id post_id with
  | .error s => .error s
  | .ok _ =>
    match UserClient.get_user getU user_id with
    | .error e => .error (.internal ("Failed to get user details: " ++ e))
    | .ok resp =>
      match resp.user with
      | none => .error (.not_found "User not found")
      | some u =>
        match LikesRepository.is_post_liked db u.id post_id with
        | .ok la => .ok ⟨la.isSome, la.map datetime_to_timestamp⟩
        | .error e => .error (statusOfLikesError e)

end LikesServiceImpl

/-- Number of rows of the pair `(u, p)` in the table. -/
def pairCount (db : List Like) (u : String) (p : Nat) : Nat :=
  (db.filter (likeMatches u p)).length

/-- The storage invariant: at most one Like row per `(user_id, post_id)`. -/
def UniquePairs (db : List Like) : Prop :=
  ∀ u p, pairCount db u p ≤ 1

/-- The specified reading of the bulk-unlike predicate: the conjunction of
whichever membership conditions are supplied (a row must match the user
list when one is given, and the post list when one is given). -/
def DelCond (user_ids : List String) (post_ids : List Nat) (r : Like) : Prop :=
  (user_ids ≠ [] → r.user_id ∈ user_ids) ∧ (post_ids ≠ [] → r.post_id ∈ post_ids)

instance (user_ids : List String) (post_ids : List Nat) (r : Like) :
    Decidable (DelCond user_ids post_ids r) := by
  unfold DelCond; infer_instance

/-! Concrete collaborator behaviours and tables used to exercise the
theorems on closed inputs. -/

/-- A canonical stored user. -/
def demoUser : User := ⟨"u1"⟩

/-- A user service: `alice` resolves to `demoUser`, `ghost` is reported
missing through a `success = false` response, and every other id fails at
the transport level. -/
def demoGetU : String → Except String GetUserResponse := fun uid =>
  if uid = "alice" then .ok ⟨true, "ok", some demoUser⟩
  else if uid = "ghost" then .ok ⟨false, "no such user", none⟩
  else .error "connection refused"

/-- A post service: post 7 exists, every other id is reported missing. -/
def demoGetP : Nat → Except String GetPostResponse := fun pid =>
  if pid = 7 then .ok ⟨true, "ok"⟩ else .ok ⟨false, "no such post"⟩

/-- Like row `(u1, 1)`. -/
def demoLike1 : Like := ⟨"id1", "u1", 1, 0, 0, 0⟩

/-- Like row `(u2, 2)`. -/
def demoLike2 : Like := ⟨"id2", "u2", 2, 0, 0, 0⟩

/-- A two-row table holding `(u1, 1)` and `(u2, 2)`. -/
def demoDb : List Like := [demoLike1, demoLike2]

/-- The row created by the successful demo `like_post` call. -/
def demoStored : Like := ⟨"lk1", "u1", 7, 5, 5, 5⟩

/-- The table after the successful demo `like_post` call. -/
def demoDb1 : List Like := [demoStored]

/-- The response of the successful demo `like_post` call. -/
def demoResp : LikePostResponse := ⟨true, "Post liked successfully", some ⟨0, 5⟩⟩

/-- The user service response for `alice`. -/
def demoR : GetUserResponse := ⟨true, "ok", some demoUser⟩

/-- A post service that always fails at the transport level. -/
def demoGetPErr : Nat → Except String GetPostResponse :=
  fun _ => .error "connection refused"

/-! Helper lemmas shared by the claim theorems. -/

/-- The backend's uniqueness-violation text is recognised by the
repository's substring test. -/
theorem strContains_duplicate :
    strContains duplicateIndexErrorText "duplicate" = true := by decide

/-- Inversion of a successful `create_like`: the inputs passed validation,
no row of the pair was present, and the table is extended by exactly the
echoed row. -/
theorem create_like_ok_inv {db db1 : List Like} {u i : String} {p t : Nat} {l : Like}
    (h : LikesRepository.create_like db u p i t = .ok (db1, l)) :
    ¬ u = "" ∧ ¬ p = 0 ∧ db.any (likeMatches u p) = false ∧
      l = ⟨i, u, p, t, t, t⟩ ∧ db1 = db ++ [l] := by
  by_cases h1 : u = ""
  · rw [LikesRepository.create_like, if_pos h1] at h
    exact Except.noConfusion h
  by_cases h2 : p = 0
  · rw [LikesRepository.create_like, if_neg h1, if_pos h2] at h
    exact Except.noConfusion h
  rw [LikesRepository.create_like, if_neg h1, if_neg h2] at h
  by_cases h3 : db.any (likeMatches u p) = true
  · rw [dbCreateLike, if_pos h3] at h
    simp only [LikesRepository.mapCreateLikeResult] at h
    split_ifs at h
  · rw [Bool.not_eq_true] at h3
    rw [dbCreateLike, if_neg (by simp [h3])] at h
    simp only [LikesRepository.mapCreateLikeResult] at h
    rw [Except.ok.injEq, Prod.mk.injEq] at h
    exact ⟨h1, h2, h3, h.2.symm, by rw [← h.1, ← h.2]⟩

/-- A `create_like` against a table already holding the pair is mapped to
`AlreadyExists` (the backend error text names a duplicate). -/
theorem create_like_dup {db : List Like} {u : String} {p : Nat} (i : String) (t : Nat)
    (hu : ¬ u = "") (hp : ¬ p = 0) (hdup : db.any (likeMatches u p) = true) :
    LikesRepository.create_like db u p i t =
      .error (.AlreadyExists "User has already liked this post") := by
  unfold LikesRepository.create_like dbCreateLike
  rw [if_neg hu, if_neg hp, if_pos hdup]
  simp only [LikesRepository.mapCreateLikeResult, strContains_duplicate, if_pos]

/-- Page component of `PaginationParams::new`. -/
theorem pagination_new_page (page limit : Int) :
    (PaginationParams.new page limit).page = if page < 1 then 1 else page := rfl

/-- Limit component of `PaginationParams::new`. -/
theorem pagination_new_limit (page limit : Int) :
    (PaginationParams.new page limit).limit =
      if limit < 1 then 10 else if limit > 100 then 100 else limit := rfl

/-- `validate_ids` succeeds exactly on a non-blank user id and a non-zero
post id. -/
theorem validate_ids_ok_iff (u : String) (p : Nat) :
    LikesServiceImpl.validate_ids u p = .ok () ↔
      trimIsEmpty u = false ∧ ¬ p = 0 := by
  unfold LikesServiceImpl.validate_ids
  split_ifs <;> simp_all

/-- A non-blank string is non-empty. -/
theorem ne_empty_of_not_blank {s : String} (h : trimIsEmpty s = false) : ¬ s = "" := by
  intro he
  subst he
  exact absurd h (by decide)

/-- Evaluation of `get_user` and `user_exists` on a successful wire
response. -/
theorem user_exists_eval {rpc : String → Except String GetUserResponse}
    {uid : String} {r : GetUserResponse} (hne : ¬ uid = "") (h : rpc uid = .ok r) :
    UserClient.get_user rpc uid = .ok r ∧
    UserClient.user_exists rpc uid = .ok (r.success && r.user.isSome) := by
  have hg : UserClient.get_user rpc uid = .ok r := by
    unfold UserClient.get_user
    rw [if_neg hne, h]
  exact ⟨hg, by unfold UserClient.user_exists; rw [hg]⟩

/-- `user_exists` turns a transport failure into `Ok(false)`. -/
theorem user_exists_err_eval {rpc : String → Except String GetUserResponse}
    {uid : String} {e : String} (hne : ¬ uid = "") (h : rpc uid = .error e) :
    UserClient.user_exists rpc uid = .ok false := by
  unfold UserClient.user_exists UserClient.get_user
  rw [if_neg hne, h]

/-- Evaluation of `get_post` and `post_exists` on a successful wire
response. -/
theorem post_exists_eval {rpc : Nat → Except String GetPostResponse}
    {pid : Nat} {r : GetPostResponse} (hnz : ¬ pid = 0) (h : rpc pid = .ok r) :
    PostClient.get_post rpc pid = .ok r ∧
    PostClient.post_exists rpc pid = .ok r.success := by
  have hg : PostClient.get_post rpc pid = .ok r := by
    unfold PostClient.get_post
    rw [if_neg hnz, h]
  exact ⟨hg, by unfold PostClient.post_exists; rw [hg]⟩

/-- `post_exists` turns a transport failure into `Ok(false)`. -/
theorem post_exists_err_eval {rpc : Nat → Except String GetPostResponse}
    {pid : Nat} {e : String} (hnz : ¬ pid = 0) (h : rpc pid = .error e) :
    PostClient.post_exists rpc pid = .ok false := by
  unfold PostClient.post_exists PostClient.get_post
  rw [if_neg hnz, h]

/-- `user_exists` never returns an error, whatever the wire does. -/
theorem user_exists_no_err (rpc : String → Except String GetUserResponse)
    (uid : String) (e : String) : UserClient.user_exists rpc uid ≠ .error e := by
  unfold UserClient.user_exists
  cases hg : UserClient.get_user rpc uid <;> simp

/-- `post_exists` never returns an error, whatever the wire does. -/
theorem post_exists_no_err (rpc : Nat → Except String GetPostResponse)
    (pid : Nat) (e : String) : PostClient.post_exists rpc pid ≠ .error e := by
  unfold PostClient.post_exists
  cases hg : PostClient.get_post rpc pid <;> simp

/-- `like_post` soft-fails when the user existence check comes back
false. -/
theorem like_post_eval_user_missing {getU : String → Except String GetUserResponse}
    {getP : Nat → Except String GetPostResponse} {db : List Like}
    {uid : String} {pid : Nat} {i : String} {t : Nat}
    (hv : LikesServiceImpl.validate_ids uid pid = .ok ())
    (hue : UserClient.user_exists getU uid = .ok false) :
    LikesServiceImpl.like_post getU getP db uid pid i t =
      .ok (db, ⟨false, "User not found", none⟩) := by
  simp only [LikesServiceImpl.like_post, hv, hue]

/-- `like_post` soft-fails when the post existence check comes back
false. -/
theorem like_post_eval_post_missing {getU : String → Except String GetUserResponse}
    {getP : Nat → Except String GetPostResponse} {db : List Like}
    {uid : String} {pid : Nat} {i : String} {t : Nat}
    {r : GetUserResponse} {u : User}
    (hv : LikesServiceImpl.validate_ids uid pid = .ok ())
    (hue : UserClient.user_exists getU uid = .ok true)
    (hgu : UserClient.get_user getU uid = .ok r) (hu : r.user = some u)
    (hpe : PostClient.post_exists getP pid = .ok false) :
    LikesServiceImpl.like_post getU getP db uid pid i t =
      .ok (db, ⟨false, "Post not found", none⟩) := by
  simp only [LikesServiceImpl.like_post, hv, hue, hgu, hu, hpe]

/-- When both existence checks pass, `like_post` is the translation of the
repository insert. -/
theorem like_post_eval_create {getU : String → Except String GetUserResponse}
    {getP : Nat → Except String GetPostResponse} {db : List Like}
    {uid : String} {pid : Nat} {i : String} {t : Nat}
    {r : GetUserResponse} {u : User}
    (hv : LikesServiceImpl.validate_ids uid pid = .ok ())
    (hue : UserClient.user_exists getU uid = .ok true)
    (hgu : UserClient.get_user getU uid = .ok r) (hu : r.user = some u)
    (hpe : PostClient.post_exists getP pid = .ok true) :
    LikesServiceImpl.like_post getU getP db uid pid i t =
      (match LikesRepository.create_like db u.id pid i t with
       | .ok (db1, like) =>
           .ok (db1, ⟨true, "Post liked successfully",
                      some (datetime_to_timestamp like.liked_at)⟩)
       | .error e => .error (statusOfLikesError e)) := by
  simp only [LikesServiceImpl.like_post, hv, hue, hgu, hu, hpe]

/-- Inversion of a `like_post` call that returned a success response: the
checks passed, the repository inserted the row, and the response carries
the stored timestamp. -/
theorem like_post_ok_true_inv {getU : String → Except String GetUserResponse}
    {getP : Nat → Except String GetPostResponse} {db db1 : List Like}
    {uid : String} {pid : Nat} {i : String} {t : Nat} {resp : LikePostResponse}
    (h : LikesServiceImpl.like_post getU getP db uid pid i t = .ok (db1, resp))
    (hs : resp.success = true) :
    ∃ r u, LikesServiceImpl.validate_ids uid pid = .ok () ∧
      UserClient.user_exists getU uid = .ok true ∧
      UserClient.get_user getU uid = .ok r ∧ r.user = some u ∧
      PostClient.post_exists getP pid = .ok true ∧
      LikesRepository.create_like db u.id pid i t = .ok (db1, ⟨i, u.id, pid, t, t, t⟩) ∧
      resp = ⟨true, "Post liked successfully", some (datetime_to_timestamp t)⟩ := by
  simp only [LikesServiceImpl.like_post] at h
  cases hv : LikesServiceImpl.validate_ids uid pid with
  | error s => rw [hv] at h; exact Except.noConfusion h
  | ok u0 =>
    cases u0
    simp only [hv] at h
    cases hue : UserClient.user_exists getU uid with
    | error e => rw [hue] at h; exact Except.noConfusion h
    | ok b =>
      cases b
      · simp only [hue] at h
        cases h
        simp at hs
      · simp only [hue] at h
        cases hgu : UserClient.get_user getU uid with
        | error e => rw [hgu] at h; exact Except.noConfusion h
        | ok r =>
          simp only [hgu] at h
          cases hu : r.user with
          | none => rw [hu] at h; exact Except.noConfusion h
          | some u =>
            simp only [hu] at h
            cases hpe : PostClient.post_exists getP pid with
            | error e => rw [hpe] at h; exact Except.noConfusion h
            | ok bp =>
              cases bp
              · simp only [hpe] at h
                cases h
                simp at hs
              · simp only [hpe] at h
                cases hcr : LikesRepository.create_like db u.id pid i t with
                | error e => rw [hcr] at h; exact Except.noConfusion h
                | ok pr =>
                  obtain ⟨db2, l⟩ := pr
                  simp only [hcr] at h
                  rw [Except.ok.injEq, Prod.mk.injEq] at h
                  obtain ⟨hdb, hresp⟩ := h
                  obtain ⟨-, -, -, hl, -⟩ := create_like_ok_inv hcr
                  subst hdb
                  refine ⟨r, u, rfl, rfl, rfl, hu, rfl, ?_, ?_⟩
                  · rw [← hl]; exact hcr
                  · rw [← hresp, hl]

/-- `delete_like` against a table with no matching row deletes nothing and
reports `false`. -/
theorem delete_like_none {db : List Like} {u : String} {p : Nat}
    (hno : ∀ x ∈ db, likeMatches u p x = false) :
    LikesRepository.delete_like db u p = .ok (db, false) := by
  unfold LikesRepository.delete_like
  have h1 : db.filter (fun r => !(likeMatches u p r)) = db :=
    List.filter_eq_self.mpr (by intro a ha; simp [hno a ha])
  have h2 : db.filter (likeMatches u p) = [] :=
    List.filter_eq_nil_iff.mpr (by intro a ha; simp [hno a ha])
  rw [h1, h2]
  rfl

/-! Claim theorems. -/

/-- Claim C4: `PaginationParams::new` normalises its inputs — a page below
1 becomes 1, a limit below 1 becomes 10, a limit above 100 becomes 100,
in-range values are unchanged, the results are always in range, and
`offset` is `(page - 1) * limit` on the normalised values. -/
theorem pagination_params_clamp (page limit : Int) :
    (page < 1 → (PaginationParams.new page limit).page = 1) ∧
    (1 ≤ page → (PaginationParams.new page limit).page = page) ∧
    (limit < 1 → (PaginationParams.new page limit).limit = 10) ∧
    (100 < limit → (PaginationParams.new page limit).limit = 100) ∧
    (1 ≤ limit → limit ≤ 100 → (PaginationParams.new page limit).limit = limit) ∧
    1 ≤ (PaginationParams.new page limit).page ∧
    1 ≤ (PaginationParams.new page limit).limit ∧
    (PaginationParams.new page limit).limit ≤ 100 ∧
    (PaginationParams.new page limit).offset =
      ((PaginationParams.new page limit).page - 1) * (PaginationParams.new page limit).limit := by
  refine ⟨?_, ?_, ?_, ?_, ?_, ?_, ?_, ?_, rfl⟩ <;>
    (intros <;>
     simp only [pagination_new_page, pagination_new_limit] <;>
     split_ifs <;> omega)

/-- Witness for C4 at concrete inputs. -/
theorem pagination_params_clamp_witness :
    (PaginationParams.new 0 0).page = 1 ∧
    (PaginationParams.new 3 0).limit = 10 ∧
    (PaginationParams.new 3 500).limit = 100 ∧
    (PaginationParams.new 3 37).page = 3 ∧
    (PaginationParams.new 3 37).limit = 37 :=
  ⟨(pagination_params_clamp 0 0).1 (by norm_num),
   (pagination_params_clamp 3 0).2.2.1 (by norm_num),
   (pagination_params_clamp 3 500).2.2.2.1 (by norm_num),
   (pagination_params_clamp 3 37).2.1 (by norm_num),
   (pagination_params_clamp 3 37).2.2.2.2.1 (by norm_num) (by norm_num)⟩

/-- The ceiling of a quotient of integers as an integer formula, for a
positive divisor. -/
theorem ceil_intCast_div_eq (a b : Int) (h1 : 1 ≤ b) :
    ⌈(a : ℚ) / (b : ℚ)⌉ = (a + b - 1) / b := by
  have hb0 : (0 : Int) < b := by omega
  have hbne : b ≠ 0 := by omega
  rw [Int.ceil_eq_iff]
  have hbq : (0 : ℚ) < (b : ℚ) := by exact_mod_cast hb0
  have hmod := Int.ediv_add_emod (a + b - 1) b
  have hr0 : 0 ≤ (a + b - 1) % b := Int.emod_nonneg _ hbne
  have hrb : (a + b - 1) % b < b := Int.emod_lt_of_pos _ hb0
  constructor
  · rw [lt_div_iff₀ hbq]
    have hint : ((a + b - 1) / b - 1) * b < a := by nlinarith [hmod, hr0, hrb]
    exact_mod_cast hint
  · rw [div_le_iff₀ hbq]
    have hint : a ≤ ((a + b - 1) / b) * b := by nlinarith [hmod, hr0, hrb]
    exact_mod_cast hint

/-- Round-to-nearest-even is the identity on integers. -/
theorem roundNearestEvenInt_intCast (n : Int) :
    roundNearestEvenInt ((n : Int) : ℚ) = n := by
  unfold roundNearestEvenInt
  rw [Int.floor_intCast]
  norm_num

/-- Round-to-nearest-even moves its argument by at most one half. -/
theorem abs_roundNearestEvenInt_sub (m : ℚ) :
    |(roundNearestEvenInt m : ℚ) - m| ≤ 1/2 := by
  have h0 : (⌊m⌋ : ℚ) ≤ m := Int.floor_le m
  have h1 : m < ⌊m⌋ + 1 := Int.lt_floor_add_one m
  unfold roundNearestEvenInt
  split_ifs with ha hb hc <;>
    (rw [abs_le]; constructor <;> push_cast <;> linarith)

/-- An upper bound on a positive rational bounds its binary logarithm. -/
theorem int_log_le_of_lt {q : ℚ} (hq : 0 < q) {k : Int}
    (h : q < (2:ℚ)^(k + 1)) : Int.log 2 q ≤ k := by
  by_contra hlt
  push_neg at hlt
  have h1 : ((2:ℕ):ℚ)^(Int.log 2 q) ≤ q := Int.zpow_log_le_self (by norm_num) hq
  have h2 : (2:ℚ)^(k + 1) ≤ (2:ℚ)^(Int.log 2 q) :=
    zpow_le_zpow_right₀ (by norm_num) (by omega)
  have h3 : ((2:ℕ):ℚ) = (2:ℚ) := by norm_num
  rw [h3] at h1
  linarith

/-- Rounding a positive rational to binary64 moves it by at most half an
ulp: `2^(log2 - 53)`. -/
theorem round64Pos_sub_abs {q : ℚ} (hq : 0 < q) :
    |round64Pos q - q| ≤ (2:ℚ)^(Int.log 2 q - 53) := by
  simp only [round64Pos]
  set L := Int.log 2 q with hL
  set m : ℚ := q * (2:ℚ)^(-(L - 52)) with hm
  have h2 : (2:ℚ)^(-(L - 52)) * (2:ℚ)^(L - 52) = 1 := by
    rw [← zpow_add₀ (by norm_num : (2:ℚ) ≠ 0),
        show -(L - 52) + (L - 52) = 0 by ring, zpow_zero]
  have key : (roundNearestEvenInt m : ℚ) * (2:ℚ)^(L - 52) - q
      = ((roundNearestEvenInt m : ℚ) - m) * (2:ℚ)^(L - 52) := by
    rw [sub_mul, hm, mul_assoc, h2, mul_one]
  rw [key, abs_mul]
  have hpos : (0:ℚ) < (2:ℚ)^(L - 52) := by positivity
  rw [abs_of_pos hpos]
  have hb := abs_roundNearestEvenInt_sub m
  have heq : (1/2 : ℚ) * (2:ℚ)^(L - 52) = (2:ℚ)^(L - 53) := by
    rw [show L - 53 = -1 + (L - 52) by ring,
        zpow_add₀ (by norm_num : (2:ℚ) ≠ 0), zpow_neg_one]
    norm_num
  rw [← heq]
  exact mul_le_mul_of_nonneg_right hb (le_of_lt hpos)

/-- The half-ulp error bound for `round64` on positive arguments. -/
theorem round64_sub_abs {q : ℚ} (hq : 0 < q) :
    |round64 q - q| ≤ (2:ℚ)^(Int.log 2 q - 53) := by
  unfold round64
  rw [if_neg (ne_of_gt hq), if_pos hq]
  exact round64Pos_sub_abs hq

/-- Integers below `2^53` are exactly representable in binary64. -/
theorem round64_int_small {n : Int} (h0 : 0 ≤ n) (hlt : n < 2^53) :
    round64 ((n : Int) : ℚ) = ((n : Int) : ℚ) := by
  rcases eq_or_lt_of_le h0 with h|h
  · rw [← h]
    simp [round64]
  · have hq : (0:ℚ) < ((n:Int):ℚ) := by exact_mod_cast h
    have hlog : Int.log 2 ((n:Int):ℚ) ≤ 52 := by
      apply int_log_le_of_lt hq
      calc ((n:Int):ℚ) < ((2^53 : Int):ℚ) := by exact_mod_cast hlt
        _ = (2:ℚ)^(52 + 1 : ℤ) := by norm_num
    unfold round64
    rw [if_neg (ne_of_gt hq), if_pos hq]
    simp only [round64Pos]
    set L := Int.log 2 ((n:Int):ℚ) with hLdef
    have hd : (0:ℤ) ≤ 52 - L := by omega
    lift 52 - L to ℕ using hd with d hd2
    have hexp : -(L - 52) = ((d:ℕ):ℤ) := by omega
    rw [hexp, zpow_natCast]
    have hmz : ((n:Int):ℚ) * (2:ℚ)^d = ((n * 2^d : Int) : ℚ) := by
      push_cast
      ring
    rw [hmz, roundNearestEvenInt_intCast, ← hmz, mul_assoc,
        ← zpow_natCast (2:ℚ) d, ← zpow_add₀ (by norm_num : (2:ℚ) ≠ 0),
        show ((d:ℕ):ℤ) + (L - 52) = 0 by omega, zpow_zero, mul_one]

/-- For a numerator below `2^38` and a divisor in `[1, 100]`, the ceiling
of the correctly rounded binary64 quotient equals the exact ceiling: the
float error (at most `2^-16`) is smaller than the quotient's distance
(at least `1/limit ≥ 1/100`) from the nearest integers. -/
theorem ceil_round64_div (tc limit : Int) (h0 : 0 ≤ tc) (htc : tc < 2^38)
    (h1 : 1 ≤ limit) (h100 : limit ≤ 100) :
    ⌈round64 ((tc:ℚ) / (limit:ℚ))⌉ = ⌈(tc:ℚ) / (limit:ℚ)⌉ := by
  have hl0 : (0:Int) < limit := by omega
  have hl0q : (0:ℚ) < (limit:ℚ) := by exact_mod_cast hl0
  rcases eq_or_lt_of_le h0 with h|h
  · rw [← h]
    norm_num [round64]
  · have htcq : (0:ℚ) < (tc:ℚ) := by exact_mod_cast h
    have hq : (0:ℚ) < (tc:ℚ)/(limit:ℚ) := div_pos htcq hl0q
    have hqle : (tc:ℚ)/(limit:ℚ) ≤ (tc:ℚ) :=
      div_le_self (le_of_lt htcq) (by exact_mod_cast h1)
    have hlog : Int.log 2 ((tc:ℚ)/(limit:ℚ)) ≤ 37 := by
      apply int_log_le_of_lt hq
      calc (tc:ℚ)/(limit:ℚ) ≤ (tc:ℚ) := hqle
        _ < ((2^38 : Int):ℚ) := by exact_mod_cast htc
        _ = (2:ℚ)^(37 + 1 : ℤ) := by norm_num
    have herr := round64_sub_abs hq
    have herr2 : |round64 ((tc:ℚ)/(limit:ℚ)) - (tc:ℚ)/(limit:ℚ)| ≤ (2:ℚ)^(-16:ℤ) :=
      le_trans herr (zpow_le_zpow_right₀ (by norm_num) (by omega))
    rw [show ((2:ℚ)^(-16:ℤ)) = 1/65536 by norm_num] at herr2
    rw [abs_le] at herr2
    have hinv : (1:ℚ)/100 ≤ 1/(limit:ℚ) :=
      one_div_le_one_div_of_le hl0q (by exact_mod_cast h100)
    by_cases hdvd : limit ∣ tc
    · obtain ⟨c, hc⟩ := hdvd
      have hc0 : 0 ≤ c := by
        by_contra hcneg
        push_neg at hcneg
        have hneg : limit * c < 0 := mul_neg_of_pos_of_neg (by omega) hcneg
        linarith [hc, h0]
      have hclt : c < 2^53 := by
        have hle := le_mul_of_one_le_left hc0 h1
        linarith [hc, htc]
      have hcq : (tc:ℚ)/(limit:ℚ) = ((c:Int):ℚ) := by
        rw [hc]
        push_cast
        rw [mul_comm, mul_div_assoc, div_self (ne_of_gt hl0q), mul_one]
      rw [hcq, round64_int_small hc0 hclt]
    · have hceil := Int.le_ceil ((tc:ℚ)/(limit:ℚ))
      have hceil2 := Int.ceil_lt_add_one ((tc:ℚ)/(limit:ℚ))
      set c : Int := ⌈(tc:ℚ)/(limit:ℚ)⌉ with hcdef
      have hne : (tc:ℚ)/(limit:ℚ) ≠ ((c:Int):ℚ) := by
        intro hcontra
        apply hdvd
        refine ⟨c, ?_⟩
        have hqq : (tc:ℚ) = ((limit * c : Int):ℚ) := by
          field_simp at hcontra
          push_cast
          linarith [hcontra]
        exact_mod_cast hqq
      have hqlt : (tc:ℚ)/(limit:ℚ) < (c:ℚ) := lt_of_le_of_ne hceil hne
      have htlt : tc < c * limit := by
        rw [div_lt_iff₀ hl0q] at hqlt
        exact_mod_cast hqlt
      have htgt : (c - 1) * limit < tc := by
        have hc1 : ((c:ℚ) - 1) < (tc:ℚ)/(limit:ℚ) := by linarith [hceil2]
        rw [lt_div_iff₀ hl0q] at hc1
        have hc2 : (((c - 1) * limit : Int):ℚ) < (tc:ℚ) := by
          push_cast
          linarith [hc1]
        exact_mod_cast hc2
      have hgap1 : ((c:ℚ) - 1) + 1/(limit:ℚ) ≤ (tc:ℚ)/(limit:ℚ) := by
        have hnum : (c - 1) * limit + 1 ≤ tc := by omega
        have hnq : (((c - 1) * limit + 1 : Int):ℚ) ≤ (tc:ℚ) := by exact_mod_cast hnum
        have heq' : ((c:ℚ) - 1) + 1/(limit:ℚ)
            = (((c - 1) * limit + 1 : Int):ℚ)/(limit:ℚ) := by
          push_cast
          field_simp
        rw [heq']
        gcongr
      have hgap2 : (tc:ℚ)/(limit:ℚ) ≤ (c:ℚ) - 1/(limit:ℚ) := by
        have hnum : tc + 1 ≤ c * limit := by omega
        have hnq : ((tc + 1 : Int):ℚ) ≤ ((c * limit : Int):ℚ) := by exact_mod_cast hnum
        rw [div_le_iff₀ hl0q]
        have hexpand : ((c:ℚ) - 1/(limit:ℚ)) * (limit:ℚ) = (c:ℚ)*(limit:ℚ) - 1 := by
          field_simp
        rw [hexpand]
        push_cast at hnq
        linarith
      rw [Int.ceil_eq_iff]
      constructor
      · linarith [herr2.1, hgap1, hinv]
      · linarith [herr2.2, hgap2, hinv]

/-- Counterexample to C5 as stated: at `total_count = 2^31` and
`limit = 1` the saturating float-to-`i32` cast caps `total_pages` at
`i32::MAX = 2147483647`, while the exact ceiling is `2147483648`. -/
theorem total_pages_ceil_counterexample :
    (PaginatedResult.new ([] : List Nat) 2147483648
        (PaginationParams.new 1 1)).total_pages = 2147483647 ∧
    ⌈((2147483648 : Int) : ℚ) / (((PaginationParams.new 1 1).limit) : ℚ)⌉
      = 2147483648 ∧
    (PaginatedResult.new ([] : List Nat) 2147483648
        (PaginationParams.new 1 1)).total_pages ≠
      ⌈((2147483648 : Int) : ℚ) / (((PaginationParams.new 1 1).limit) : ℚ)⌉ := by
  have hlim : (PaginationParams.new 1 1).limit = 1 := rfl
  have hceil : ⌈((2147483648 : Int) : ℚ) /
      (((PaginationParams.new 1 1).limit) : ℚ)⌉ = 2147483648 := by
    rw [hlim, Int.cast_one, div_one, Int.ceil_intCast]
  have hr1 : round64 (((1:Int)) : ℚ) = ((1:Int):ℚ) :=
    round64_int_small (by norm_num) (by norm_num)
  have hr2 : round64 (((2147483648:Int)) : ℚ) = ((2147483648:Int):ℚ) :=
    round64_int_small (by norm_num) (by norm_num)
  have htp : (PaginatedResult.new ([] : List Nat) 2147483648
      (PaginationParams.new 1 1)).total_pages = 2147483647 := by
    show saturateToI32 ⌈round64 (round64 (((2147483648:Int)) : ℚ) /
        round64 ((((PaginationParams.new 1 1).limit)) : ℚ))⌉ = 2147483647
    rw [hlim, hr2, hr1, Int.cast_one, div_one, hr2, Int.ceil_intCast]
    norm_num [saturateToI32]
  refine ⟨htp, hceil, ?_⟩
  rw [htp, hceil]
  decide

/-- Claim C5, amended: for a non-negative `total_count` and a limit in the
range `PaginationParams` produces, whenever the exact ceiling
`ceil(total_count / limit)` fits in `i32`, `PaginatedResult::new` sets
`total_pages` to it — equivalently to `(total_count + limit - 1) / limit`;
beyond `i32::MAX` the saturating cast caps the value instead. -/
theorem total_pages_eq_ceil {T : Type} (data : List T) (total_count : Int)
    (params : PaginationParams) (h0 : 0 ≤ total_count)
    (h1 : 1 ≤ params.limit) (h100 : params.limit ≤ 100)
    (hfit : ⌈(total_count : ℚ) / (params.limit : ℚ)⌉ ≤ 2147483647) :
    (PaginatedResult.new data total_count params).total_pages =
      ⌈(total_count : ℚ) / (params.limit : ℚ)⌉ ∧
    (PaginatedResult.new data total_count params).total_pages =
      (total_count + params.limit - 1) / params.limit := by
  have hl0 : (0:Int) < params.limit := by omega
  have hl0q : (0:ℚ) < (params.limit:ℚ) := by exact_mod_cast hl0
  have h100q : (params.limit:ℚ) ≤ 100 := by exact_mod_cast h100
  have hqle2 : ((total_count : ℚ)) ≤ 2147483647 * (params.limit : ℚ) := by
    have hle := Int.le_ceil ((total_count : ℚ) / (params.limit : ℚ))
    have hle2 : ((total_count : ℚ) / (params.limit : ℚ)) ≤ ((2147483647:Int):ℚ) :=
      le_trans hle (by exact_mod_cast hfit)
    rw [div_le_iff₀ hl0q] at hle2
    push_cast at hle2
    linarith
  have htc : total_count < 2^38 := by
    have h3 : ((total_count:ℚ)) ≤ 2147483647 * 100 := by nlinarith [hqle2, h100q, hl0q]
    have h4 : ((total_count:ℚ)) < ((2^38 : Int):ℚ) := lt_of_le_of_lt h3 (by norm_num)
    exact_mod_cast h4
  have e1 : round64 ((total_count : Int) : ℚ) = ((total_count : Int) : ℚ) :=
    round64_int_small h0 (by omega)
  have e2 : round64 ((params.limit : Int) : ℚ) = ((params.limit : Int) : ℚ) :=
    round64_int_small (by omega) (by omega)
  have e3 := ceil_round64_div total_count params.limit h0 htc h1 h100
  have htp : (PaginatedResult.new data total_count params).total_pages
      = saturateToI32 ⌈(total_count:ℚ)/(params.limit:ℚ)⌉ := by
    show saturateToI32 ⌈round64 (round64 ((total_count : Int) : ℚ) /
        round64 ((params.limit : Int) : ℚ))⌉
      = saturateToI32 ⌈(total_count:ℚ)/(params.limit:ℚ)⌉
    rw [e1, e2, e3]
  have hceilge : 0 ≤ ⌈(total_count:ℚ)/(params.limit:ℚ)⌉ :=
    Int.ceil_nonneg (div_nonneg (by exact_mod_cast h0) (le_of_lt hl0q))
  have hsat : saturateToI32 ⌈(total_count:ℚ)/(params.limit:ℚ)⌉
      = ⌈(total_count:ℚ)/(params.limit:ℚ)⌉ := by
    unfold saturateToI32
    split_ifs <;> omega
  refine ⟨htp.trans hsat, ?_⟩
  rw [htp, hsat]
  exact ceil_intCast_div_eq total_count params.limit h1

/-- Witness for the amended C5: 25 rows at limit 10 give 3 pages. -/
theorem total_pages_eq_ceil_witness :
    (PaginatedResult.new ([] : List Nat) 25 (PaginationParams.new 1 10)).total_pages = 3 := by
  have hlim : (PaginationParams.new 1 10).limit = 10 := rfl
  have hfit : ⌈((25:Int) : ℚ) / (((PaginationParams.new 1 10).limit) : ℚ)⌉
      ≤ 2147483647 := by
    rw [hlim]
    have hc : ⌈((25:Int) : ℚ) / (((10:Int)) : ℚ)⌉ = 3 := by
      rw [Int.ceil_eq_iff]
      constructor <;> norm_num
    rw [hc]
    norm_num
  have h := total_pages_eq_ceil ([] : List Nat) 25 (PaginationParams.new 1 10)
    (by norm_num) (by norm_num [PaginationParams.new])
    (by norm_num [PaginationParams.new]) hfit
  rw [h.2, hlim]
  decide

/-- Claim C6: `create_like` rejects an empty user id or a zero post id
with `InvalidInput` uniformly in the table (so before any backend I/O and
without touching it), and maps a backend success that echoes no row to
`Internal`. -/
theorem create_like_validation (u : String) (p : Nat) :
    (u = "" → ∀ (db : List Like) (i : String) (t : Nat),
      LikesRepository.create_like db u p i t =
        .error (.InvalidInput "User ID cannot be empty")) ∧
    (¬ u = "" → p = 0 → ∀ (db : List Like) (i : String) (t : Nat),
      LikesRepository.create_like db u p i t =
        .error (.InvalidInput "Post ID must be a positive integer")) ∧
    (∀ db1 : List Like,
      LikesRepository.mapCreateLikeResult (.ok (db1, none)) =
        .error (.Internal "Failed to create like")) := by
  refine ⟨?_, ?_, ?_⟩
  · intro hu db i t
    unfold LikesRepository.create_like
    rw [if_pos hu]
  · intro hu hp db i t
    unfold LikesRepository.create_like
    rw [if_neg hu, if_pos hp]
  · intro db1
    rfl

/-- Witness for C6 at concrete inputs. -/
theorem create_like_validation_witness :
    LikesRepository.create_like demoDb "" 5 "x" 0 =
      .error (.InvalidInput "User ID cannot be empty") ∧
    LikesRepository.create_like demoDb "bob" 0 "x" 0 =
      .error (.InvalidInput "Post ID must be a positive integer") ∧
    LikesRepository.mapCreateLikeResult (.ok (demoDb, none)) =
      .error (.Internal "Failed to create like") :=
  ⟨(create_like_validation "" 5).1 rfl demoDb "x" 0,
   (create_like_validation "bob" 0).2.1 (by decide) rfl demoDb "x" 0,
   (create_like_validation "bob" 0).2.2 demoDb⟩

/-- Claim C3: every requested post id appears in the result of
`get_likes_count_bulk`, carrying the number of matching rows, and in
particular the count 0 when no row matches. -/
theorem get_likes_count_bulk_complete (db : List Like) (post_ids : List Nat) :
    (get_likes_count_bulk db post_ids).map Prod.fst = post_ids ∧
    (∀ p, p ∈ post_ids →
      (p, ((db.filter (fun r => r.post_id == p)).length : Int)) ∈
        get_likes_count_bulk db post_ids) ∧
    (∀ p, p ∈ post_ids → (∀ r ∈ db, r.post_id ≠ p) →
      (p, (0 : Int)) ∈ get_likes_count_bulk db post_ids) := by
  refine ⟨?_, ?_, ?_⟩
  · have hcomp :
        (Prod.fst ∘ fun q : Nat =>
          (q, ((db.filter (fun r => r.post_id == q)).length : Int))) = id := rfl
    rw [get_likes_count_bulk, List.map_map, hcomp, List.map_id]
  · intro p hp
    exact List.mem_map.mpr ⟨p, hp, rfl⟩
  · intro p hp hnone
    have hnil : db.filter (fun r => r.post_id == p) = [] := by
      rw [List.filter_eq_nil_iff]
      intro a ha
      simpa using hnone a ha
    have hmem : (p, ((db.filter (fun r => r.post_id == p)).length : Int)) ∈
        get_likes_count_bulk db post_ids :=
      List.mem_map.mpr ⟨p, hp, rfl⟩
    rw [hnil] at hmem
    simpa using hmem

/-- Witness for C3: posts 1, 2, 3 against the two-row demo table. -/
theorem get_likes_count_bulk_complete_witness :
    (get_likes_count_bulk demoDb [1, 2, 3]).map Prod.fst = [1, 2, 3] ∧
    (2, (1 : Int)) ∈ get_likes_count_bulk demoDb [1, 2, 3] ∧
    (3, (0 : Int)) ∈ get_likes_count_bulk demoDb [1, 2, 3] :=
  ⟨(get_likes_count_bulk_complete demoDb [1, 2, 3]).1,
   (get_likes_count_bulk_complete demoDb [1, 2, 3]).2.1 2 (by decide),
   (get_likes_count_bulk_complete demoDb [1, 2, 3]).2.2 3 (by decide) (by decide)⟩

/-- The membership predicate built by `unlike_posts` agrees with the
specified conjunction of the supplied conditions. -/
theorem bulkMatches_iff (uids : List String) (pids : List Nat) (r : Like) :
    LikesRepository.bulkMatches uids pids r = true ↔ DelCond uids pids r := by
  simp [LikesRepository.bulkMatches, DelCond, Bool.and_eq_true, Bool.or_eq_true,
        List.isEmpty_iff, List.elem_iff, List.contains, or_iff_not_imp_left]

/-- Claim C7: an `UnlikePost` call on a pair with no existing like yields
the structured response `success = false` / "Like not found", never an
RPC error: `delete_like` reports the boolean `false` rather than failing,
and the orchestrator translates `false` into that response. -/
theorem unlike_post_like_not_found
    (getU : String → Except String GetUserResponse) (db : List Like)
    (uid : String) (pid : Nat) (r : GetUserResponse) (u : User)
    (hv : LikesServiceImpl.validate_ids uid pid = .ok ())
    (hgu : UserClient.get_user getU uid = .ok r) (hu : r.user = some u)
    (hno : ∀ x ∈ db, likeMatches u.id pid x = false) :
    LikesRepository.delete_like db u.id pid = .ok (db, false) ∧
    LikesServiceImpl.unlike_post getU db uid pid =
      .ok (db, ⟨false, "Like not found"⟩) := by
  have hd := delete_like_none hno
  refine ⟨hd, ?_⟩
  simp only [LikesServiceImpl.unlike_post, hv, hgu, hu, hd]

/-- Witness for C7: unliking the absent pair `(u1, 7)` through `alice`. -/
theorem unlike_post_like_not_found_witness :
    LikesRepository.delete_like ([] : List Like) "u1" 7 = .ok ([], false) ∧
    LikesServiceImpl.unlike_post demoGetU [] "alice" 7 =
      .ok ([], ⟨false, "Like not found"⟩) :=
  unlike_post_like_not_found demoGetU [] "alice" 7 demoR demoUser rfl rfl rfl
    (fun x hx => absurd hx (List.not_mem_nil x))

/-- Claim C8: in the federated like flow a missing user or post yields a
structured failure response, a successful insert yields `success = true`
with the stored `liked_at`, and a repository error is propagated as the
translated RPC status, not as a structured failure. -/
theorem like_post_outcomes :
    ∀ (getU : String → Except String GetUserResponse)
      (getP : Nat → Except String GetPostResponse)
      (db : List Like) (uid : String) (pid : Nat) (i : String) (t : Nat),
      LikesServiceImpl.validate_ids uid pid = .ok () →
      ((UserClient.user_exists getU uid = .ok false →
          LikesServiceImpl.like_post getU getP db uid pid i t =
            .ok (db, ⟨false, "User not found", none⟩)) ∧
       (∀ r u, UserClient.user_exists getU uid = .ok true →
          UserClient.get_user getU uid = .ok r → r.user = some u →
          ((PostClient.post_exists getP pid = .ok false →
              LikesServiceImpl.like_post getU getP db uid pid i t =
                .ok (db, ⟨false, "Post not found", none⟩)) ∧
           (∀ db1 l, PostClient.post_exists getP pid = .ok true →
              LikesRepository.create_like db u.id pid i t = .ok (db1, l) →
              LikesServiceImpl.like_post getU getP db uid pid i t =
                .ok (db1, ⟨true, "Post liked successfully",
                           some (datetime_to_timestamp l.liked_at)⟩)) ∧
           (∀ e, PostClient.post_exists getP pid = .ok true →
              LikesRepository.create_like db u.id pid i t = .error e →
              LikesServiceImpl.like_post getU getP db uid pid i t =
                .error (statusOfLikesError e))))) := by
  intro getU getP db uid pid i t hv
  refine ⟨fun hue => like_post_eval_user_missing hv hue, ?_⟩
  intro r u hue hgu hu
  refine ⟨fun hpe => like_post_eval_post_missing hv hue hgu hu hpe, ?_, ?_⟩
  · intro db1 l hpe hcr
    rw [like_post_eval_create hv hue hgu hu hpe, hcr]
  · intro e hpe hcr
    rw [like_post_eval_create hv hue hgu hu hpe, hcr]

/-- Witness for C8: the four outcomes at concrete inputs. -/
theorem like_post_outcomes_witness :
    LikesServiceImpl.like_post demoGetU demoGetP [] "ghost" 7 "lk1" 5 =
      .ok ([], ⟨false, "User not found", none⟩) ∧
    LikesServiceImpl.like_post demoGetU demoGetP [] "alice" 9 "lk1" 5 =
      .ok ([], ⟨false, "Post not found", none⟩) ∧
    LikesServiceImpl.like_post demoGetU demoGetP [] "alice" 7 "lk1" 5 =
      .ok (demoDb1, ⟨true, "Post liked successfully", some ⟨0, 5⟩⟩) ∧
    LikesServiceImpl.like_post demoGetU demoGetP demoDb1 "alice" 7 "lk2" 9 =
      .error (.already_exists "User has already liked this post") :=
  ⟨(like_post_outcomes demoGetU demoGetP [] "ghost" 7 "lk1" 5 rfl).1 rfl,
   ((like_post_outcomes demoGetU demoGetP [] "alice" 9 "lk1" 5 rfl).2
      demoR demoUser rfl rfl rfl).1 rfl,
   ((like_post_outcomes demoGetU demoGetP [] "alice" 7 "lk1" 5 rfl).2
      demoR demoUser rfl rfl rfl).2.1 demoDb1 demoStored rfl rfl,
   ((like_post_outcomes demoGetU demoGetP demoDb1 "alice" 7 "lk2" 9 rfl).2
      demoR demoUser rfl rfl rfl).2.2
      (.AlreadyExists "User has already liked this post") rfl rfl⟩

/-- Claim C10: the existence checks of both collaborator clients never
return an error — a failing wire call becomes `Ok(false)` — so a
collaborator transport failure in the like flow produces the structured
"User not found"/"Post not found" soft-fail response, and the
internal-error branches guarding those checks cannot fire. -/
theorem exists_checks_never_error :
    (∀ (rpc : String → Except String GetUserResponse) (uid e : String),
        UserClient.user_exists rpc uid ≠ .error e) ∧
    (∀ (rpc : Nat → Except String GetPostResponse) (pid : Nat) (e : String),
        PostClient.post_exists rpc pid ≠ .error e) ∧
    (∀ (getU : String → Except String GetUserResponse)
       (getP : Nat → Except String GetPostResponse)
       (db : List Like) (uid : String) (pid : Nat) (i : String) (t : Nat)
       (e : String),
        LikesServiceImpl.validate_ids uid pid = .ok () →
        getU uid = .error e →
        LikesServiceImpl.like_post getU getP db uid pid i t =
          .ok (db, ⟨false, "User not found", none⟩)) ∧
    (∀ (getU : String → Except String GetUserResponse)
       (getP : Nat → Except String GetPostResponse)
       (db : List Like) (uid : String) (pid : Nat) (i : String) (t : Nat)
       (r : GetUserResponse) (u : User) (e : String),
        LikesServiceImpl.validate_ids uid pid = .ok () →
        getU uid = .ok r → r.success = true → r.user = some u →
        getP pid = .error e →
        LikesServiceImpl.like_post getU getP db uid pid i t =
          .ok (db, ⟨false, "Post not found", none⟩)) := by
  refine ⟨user_exists_no_err, post_exists_no_err, ?_, ?_⟩
  · intro getU getP db uid pid i t e hv herr
    have hne : ¬ uid = "" :=
      ne_empty_of_not_blank ((validate_ids_ok_iff uid pid).mp hv).1
    exact like_post_eval_user_missing hv (user_exists_err_eval hne herr)
  · intro getU getP db uid pid i t r u e hv hok hsucc hu herr
    obtain ⟨hvb, hnz⟩ := (validate_ids_ok_iff uid pid).mp hv
    have hne : ¬ uid = "" := ne_empty_of_not_blank hvb
    obtain ⟨hgu, hue⟩ := user_exists_eval hne hok
    rw [hsucc, hu] at hue
    have hue2 : UserClient.user_exists getU uid = .ok true := by simpa using hue
    have hpef : PostClient.post_exists getP pid = .ok false :=
      post_exists_err_eval hnz herr
    exact like_post_eval_post_missing hv hue2 hgu hu hpef

/-- Witness for C10 at concrete inputs, including a transport failure of
each collaborator. -/
theorem exists_checks_never_error_witness :
    UserClient.user_exists demoGetU "zzz" ≠ .error "x" ∧
    PostClient.post_exists demoGetP 3 ≠ .error "x" ∧
    LikesServiceImpl.like_post demoGetU demoGetP [] "bob" 7 "lk1" 5 =
      .ok ([], ⟨false, "User not found", none⟩) ∧
    LikesServiceImpl.like_post demoGetU demoGetPErr [] "alice" 7 "lk1" 5 =
      .ok ([], ⟨false, "Post not found", none⟩) :=
  ⟨exists_checks_never_error.1 demoGetU "zzz" "x",
   exists_checks_never_error.2.1 demoGetP 3 "x",
   exists_checks_never_error.2.2.1 demoGetU demoGetP [] "bob" 7 "lk1" 5
     "connection refused" rfl rfl,
   exists_checks_never_error.2.2.2 demoGetU demoGetPErr [] "alice" 7 "lk1" 5
     demoR demoUser "connection refused" rfl rfl rfl rfl rfl⟩

/-- Claim C1: after a successful `like_post` of the pair, exactly one row
of the canonical pair exists, per-pair uniqueness of the table is
preserved, and a second identical `like_post` is answered with the
`AlreadyExists` status obtained by recognising the backend's
uniqueness-violation error text — no second row is created. -/
theorem like_post_unique
    (getU : String → Except String GetUserResponse)
    (getP : Nat → Except String GetPostResponse)
    (db db1 : List Like) (uid : String) (pid : Nat) (i1 i2 : String)
    (t1 t2 : Nat) (resp : LikePostResponse) (r : GetUserResponse) (u : User)
    (h : LikesServiceImpl.like_post getU getP db uid pid i1 t1 = .ok (db1, resp))
    (hs : resp.success = true)
    (hgu : UserClient.get_user getU uid = .ok r) (hu : r.user = some u) :
    pairCount db1 u.id pid = 1 ∧
    (UniquePairs db → UniquePairs db1) ∧
    LikesServiceImpl.like_post getU getP db1 uid pid i2 t2 =
      .error (.already_exists "User has already liked this post") := by
  obtain ⟨r2, u2, hv, hue, hgu2, hu2, hpe, hcr, hresp⟩ := like_post_ok_true_inv h hs
  rw [hgu] at hgu2
  injection hgu2 with hr
  subst hr
  rw [hu] at hu2
  injection hu2 with huu
  subst huu
  obtain ⟨hne, hnz, hany, hl, hdb1⟩ := create_like_ok_inv hcr
  have hfilter0 : db.filter (likeMatches u.id pid) = [] := by
    rw [List.filter_eq_nil_iff]
    exact fun a ha => List.any_eq_false.mp hany a ha
  have hmem : likeMatches u.id pid (⟨i1, u.id, pid, t1, t1, t1⟩ : Like) = true := by
    simp [likeMatches]
  refine ⟨?_, ?_, ?_⟩
  · rw [hdb1, pairCount, List.filter_append, hfilter0]
    simp [hmem]
  · intro hUP u3 p3
    rw [pairCount, hdb1, List.filter_append, List.length_append]
    by_cases hm : likeMatches u3 p3 (⟨i1, u.id, pid, t1, t1, t1⟩ : Like) = true
    · have he : u.id = u3 ∧ pid = p3 := by simpa [likeMatches] using hm
      obtain ⟨e1, e2⟩ := he
      subst e1
      subst e2
      rw [hfilter0]
      simp [hmem]
    · rw [Bool.not_eq_true] at hm
      have hone : ([⟨i1, u.id, pid, t1, t1, t1⟩] : List Like).filter
          (likeMatches u3 p3) = [] := by
        simp [List.filter_cons, hm]
      rw [hone]
      have := hUP u3 p3
      simpa [pairCount] using this
  · have hany1 : db1.any (likeMatches u.id pid) = true := by
      rw [hdb1, List.any_append]
      simp [hmem]
    have hcd := create_like_dup i2 t2 hne hnz hany1
    rw [like_post_eval_create hv hue hgu hu hpe, hcd]
    rfl

/-- Witness for C1: the demo like call followed by a duplicate attempt. -/
theorem like_post_unique_witness :
    pairCount demoDb1 "u1" 7 = 1 ∧
    pairCount demoDb1 "u1" 7 ≤ 1 ∧
    LikesServiceImpl.like_post demoGetU demoGetP demoDb1 "alice" 7 "lk2" 9 =
      .error (.already_exists "User has already liked this post") := by
  have h := like_post_unique demoGetU demoGetP [] demoDb1 "alice" 7 "lk1" "lk2"
    5 9 demoResp demoR demoUser rfl rfl rfl rfl
  exact ⟨h.1, h.2.1 (fun u p => by simp [pairCount]) "u1" 7, h.2.2⟩

/-- Claim C9: round trip — when `like_post` succeeds, the subsequent
`is_post_liked` call reports `is_liked = true` with the very `liked_at`
the like call returned. -/
theorem like_then_is_post_liked
    (getU : String → Except String GetUserResponse)
    (getP : Nat → Except String GetPostResponse)
    (db db1 : List Like) (uid : String) (pid : Nat) (i : String) (t : Nat)
    (resp : LikePostResponse)
    (h : LikesServiceImpl.like_post getU getP db uid pid i t = .ok (db1, resp))
    (hs : resp.success = true) :
    LikesServiceImpl.is_post_liked getU db1 uid pid = .ok ⟨true, resp.liked_at⟩ := by
  obtain ⟨r, u, hv, hue, hgu, hu, hpe, hcr, hresp⟩ := like_post_ok_true_inv h hs
  obtain ⟨hne, hnz, hany, hl, hdb1⟩ := create_like_ok_inv hcr
  have hfilter0 : db.filter (likeMatches u.id pid) = [] := by
    rw [List.filter_eq_nil_iff]
    exact fun a ha => List.any_eq_false.mp hany a ha
  have hmem : likeMatches u.id pid (⟨i, u.id, pid, t, t, t⟩ : Like) = true := by
    simp [likeMatches]
  have hfilter : db1.filter (likeMatches u.id pid) = [⟨i, u.id, pid, t, t, t⟩] := by
    rw [hdb1, List.filter_append, hfilter0]
    simp [hmem]
  have hrepo : LikesRepository.is_post_liked db1 u.id pid = .ok (some t) := by
    unfold LikesRepository.is_post_liked
    rw [hfilter]
    rfl
  simp only [LikesServiceImpl.is_post_liked, hv, hgu, hu, hrepo]
  rw [hresp]
  rfl

/-- Witness for C9: the demo like call observed by `is_post_liked`. -/
theorem like_then_is_post_liked_witness :
    LikesServiceImpl.is_post_liked demoGetU demoDb1 "alice" 7 =
      .ok ⟨true, some ⟨0, 5⟩⟩ :=
  like_then_is_post_liked demoGetU demoGetP [] demoDb1 "alice" 7 "lk1" 5
    demoResp rfl rfl

/-- Claim C2: `unlike_posts` rejects with `InvalidInput` exactly when both
lists are empty; otherwise the surviving table consists exactly of the
rows that do not satisfy the conjunction of the supplied membership
conditions (AND across the supplied lists, not the union), and the flag
reports whether any row was deleted. -/
theorem unlike_posts_and_semantics (db : List Like) (uids : List String)
    (pids : List Nat) :
    (uids = [] → pids = [] →
      LikesRepository.unlike_posts db uids pids =
        .error (.InvalidInput
          "At least one of user_ids or post_ids must be provided")) ∧
    (∀ m, LikesRepository.unlike_posts db uids pids = .error (.InvalidInput m) →
      uids = [] ∧ pids = []) ∧
    (∀ db1 flag, LikesRepository.unlike_posts db uids pids = .ok (db1, flag) →
      (∀ r : Like, r ∈ db1 ↔ r ∈ db ∧ ¬ DelCond uids pids r) ∧
      (flag = true ↔ ∃ r ∈ db, DelCond uids pids r)) := by
  refine ⟨?_, ?_, ?_⟩
  · intro h1 h2
    subst h1
    subst h2
    rfl
  · intro m hm
    unfold LikesRepository.unlike_posts at hm
    by_cases hc : (uids.isEmpty && pids.isEmpty) = true
    · simpa [List.isEmpty_iff] using hc
    · rw [if_neg hc] at hm
      exact Except.noConfusion hm
  · intro db1 flag hok
    unfold LikesRepository.unlike_posts at hok
    by_cases hc : (uids.isEmpty && pids.isEmpty) = true
    · rw [if_pos hc] at hok
      exact Except.noConfusion hok
    · rw [if_neg hc] at hok
      rw [Except.ok.injEq, Prod.mk.injEq] at hok
      obtain ⟨hdb1, hflag⟩ := hok
      constructor
      · intro r
        rw [← hdb1, List.mem_filter]
        simp [Bool.not_eq_true', Bool.not_eq_true, ← bulkMatches_iff]
      · rw [← hflag]
        have hstep : (db.filter (LikesRepository.bulkMatches uids pids)).isEmpty
            = false ↔ db.filter (LikesRepository.bulkMatches uids pids) ≠ [] := by
          rw [Bool.eq_false_iff, Ne, Ne, List.isEmpty_iff]
        rw [Bool.not_eq_true', hstep, Ne, List.filter_eq_nil_iff]
        push_neg
        simp [bulkMatches_iff]

/-- Witness for C2: the spec's AND example on the two-row demo table. -/
theorem unlike_posts_and_semantics_witness :
    LikesRepository.unlike_posts demoDb [] [] =
      .error (.InvalidInput
        "At least one of user_ids or post_ids must be provided") ∧
    (demoLike1 ∈ demoDb ∧ ¬ DelCond ["u1"] [2] demoLike1) ∧
    (demoLike2 ∈ demoDb ∧ ¬ DelCond [] [1] demoLike2) :=
  ⟨(unlike_posts_and_semantics demoDb [] []).1 rfl rfl,
   (((unlike_posts_and_semantics demoDb ["u1"] [2]).2.2 demoDb false rfl).1
      demoLike1).mp (by simp [demoDb]),
   (((unlike_posts_and_semantics demoDb [] [1]).2.2 [demoLike2] true rfl).1
      demoLike2).mp (by simp)⟩

end WordWeave
